import Mathlib

/-!
Verification of the PigeonIdP identity-provider core (index.js and saml.js)
against its natural-language specification.

The embedding models JavaScript objects as ordered association lists
(insertion order is observable, as it is in JS), `JSON.stringify` as a
deterministic serializer over that order, and the external crypto
collaborator (UnSEA `signMessage` / `verifyMessage`) as abstract function
parameters.  Times are epoch seconds (tokens) or epoch milliseconds (SAML),
modelled as integers / naturals.
-/

/-- A JSON-like value, the structured data stored in tokens, directory
records and the DHT. -/
inductive JVal where
  | str (s : String)
  | num (n : Int)
  | bool (b : Bool)
  | obj (fields : List (String × JVal))

/-- Escaping of one character as performed by `JSON.stringify` inside string
literals (quote and backslash; other characters pass through). -/
def jsonEscapeChar (c : Char) : String :=
  if c = '\\' then "\\\\"
  else if c = '"' then "\\\""
  else String.singleton c

/-- `JSON.stringify` escaping of a string body. -/
def jsonEscape (s : String) : String :=
  String.join (s.data.map jsonEscapeChar)

/-- A JSON string literal: quoted, escaped body. -/
def jsonQuote (s : String) : String :=
  "\"" ++ jsonEscape s ++ "\""

mutual

/-- `JSON.stringify` over the value model: objects are serialized in the
(insertion) order their field list carries — exactly the native key order
behaviour of the reference code. -/
def serialize : JVal → String
  | .str s => jsonQuote s
  | .num n => toString n
  | .bool b => if b then "true" else "false"
  | .obj fields => "\x7b" ++ serializeFields fields ++ "\x7d"

/-- Comma-separated `"key":value` entries of an object body. -/
def serializeFields : List (String × JVal) → String
  | [] => ""
  | [(k, v)] => jsonQuote k ++ ":" ++ serialize v
  | (k, v) :: rest => jsonQuote k ++ ":" ++ serialize v ++ "," ++ serializeFields rest

end

/-- JS property read `o[k]`: first binding of `k` (JS objects have unique
keys, so first = only). -/
def getKey (l : List (String × JVal)) (k : String) : Option JVal :=
  match l with
  | [] => none
  | (k', v) :: rest => if k' = k then some v else getKey rest k

/-- JS property write `o[k] = v` (also the override semantics of a spread
`{...o, k: v}`): an existing key keeps its position and gets the new value,
a fresh key is appended at the end. -/
def setKey (l : List (String × JVal)) (k : String) (v : JVal) : List (String × JVal) :=
  match l with
  | [] => [(k, v)]
  | (k', v') :: rest => if k' = k then (k', v) :: rest else (k', v') :: setKey rest k v

/-- JS rest destructuring `const { k, ...rest } = o`: `rest` is `o` without
the binding for `k`, remaining keys in order. -/
def removeKey (l : List (String × JVal)) (k : String) : List (String × JVal) :=
  l.filter (fun p => p.1 != k)

/-- An authentication token as produced/consumed by the code:
`{ claims, signature }`, either field possibly absent on foreign input. -/
structure AuthToken where
  claims : Option (List (String × JVal))
  signature : Option String

/-- The claims object built by `generateAuthToken` (index.js lines 311-319):
spread of the caller claims, then `namespace`, `iss`, `iat`, `exp` assigned
on top (later literal keys override spread entries). -/
def tokenClaims (claims : List (String × JVal)) (ns pub : String) (now ttl : Int) :
    List (String × JVal) :=
  setKey (setKey (setKey (setKey claims "namespace" (.str ns))
    "iss" (.str pub)) "iat" (.num now)) "exp" (.num (now + ttl))

/-- `generateAuthToken(claims, expiresIn)` (index.js lines 306-326): build
the claims object, serialize it, sign the serialization.  `sign` is the
abstract UnSEA signer bound to the session key, `now` the current epoch
second. -/
def generateAuthToken (sign : String → String) (ns pub : String) (now ttl : Int)
    (claims : List (String × JVal)) : AuthToken :=
  let c := tokenClaims claims ns pub now ttl
  { claims := some c, signature := some (sign (serialize (.obj c))) }

/-- The expiration test of `verifyAuthToken` (index.js line 340):
`token.claims.exp && token.claims.exp < now` — JS truthiness means an absent
`exp` and `exp = 0` both skip the check. -/
def expiredCheck (c : List (String × JVal)) (now : Int) : Bool :=
  match getKey c "exp" with
  | some (.num e) => decide (e ≠ 0) && decide (e < now)
  | _ => false

/-- Result of `verifyAuthToken`: `{valid:false, error}` or
`{valid:true, claims}`. -/
inductive VerifyResult where
  | invalid (error : String)
  | valid (claims : List (String × JVal))

/-- `verifyAuthToken(token)` (index.js lines 333-353).  `verify` is the
abstract UnSEA verifier `(message, signatureValue, publicKeyValue)`; the
code passes it the re-serialized claims, the token's signature, and
`token.claims.iss`.  A missing or empty-string signature is falsy in JS and
fails the structural check. -/
def verifyAuthToken (verify : String → Option JVal → Option JVal → Bool)
    (now : Int) (token : AuthToken) : VerifyResult :=
  match token.claims, token.signature with
  | some c, some sig =>
    if sig = "" then .invalid "Invalid token format"
    else if expiredCheck c now then .invalid "Token expired"
    else
      let tokenString := serialize (.obj c)
      if verify tokenString (some (.str sig)) (getKey c "iss") then .valid c
      else .invalid "Invalid signature"
  | _, _ => .invalid "Invalid token format"

/-- DHT key used by `registerIdentity` / `lookupIdentity`:
`user:<signingPublic>:<namespace>`. -/
def dirKey (pub ns : String) : String :=
  "user:" ++ pub ++ ":" ++ ns

/-- `registerIdentity(profile)` (index.js lines 360-379): assemble the
record in source field order, sign its serialization, append the signature
field, and return the `(key, value)` pair handed to `webDHT.put`. -/
def registerIdentity (sign : String → String) (pub epub : String) (profile : JVal)
    (ns : String) (registered : Int) : String × List (String × JVal) :=
  let identityData : List (String × JVal) :=
    [("pub", .str pub), ("epub", .str epub), ("profile", profile),
     ("namespace", .str ns), ("registered", .num registered)]
  let dataString := serialize (.obj identityData)
  let signed := setKey identityData "signature" (.str (sign dataString))
  (dirKey pub ns, signed)

/-- `lookupIdentity(publicKey)` (index.js lines 386-407): read the
namespaced key from the DHT (`store`), return `null` when absent, otherwise
strip the signature field, re-serialize the rest and verify the signature
against the queried public key; a failed check is thrown as an error. -/
def lookupIdentity (verify : String → Option JVal → Option JVal → Bool)
    (store : String → Option (List (String × JVal))) (ns publicKey : String) :
    Except String (Option (List (String × JVal))) :=
  match store (dirKey publicKey ns) with
  | none => .ok none
  | some data =>
    let signature := getKey data "signature"
    let identityData := removeKey data "signature"
    let dataString := serialize (.obj identityData)
    if verify dataString signature (some (.str publicKey)) then .ok (some identityData)
    else .error "Identity data signature verification failed"

/-- The session's keypair as held by UnSEA (opaque portable strings). -/
structure KeyPair where
  pub : String
  epub : String
  priv : String
  epriv : String
  deriving DecidableEq

/-- The mutable state of a `PigeonIdP` instance: namespace, mesh / WebDHT
handles (modelled as presence flags), the loaded keypair slot, and the
`initialized` flag. -/
structure IdPState where
  ns : String
  mesh : Bool
  webDHT : Bool
  keys : Option KeyPair
  initialized : Bool
  deriving DecidableEq

/-- `disconnect()` (index.js lines 512-519): when a mesh is present, drop
the mesh and WebDHT handles and clear `initialized`; the `keys` slot is not
touched. -/
def disconnect (s : IdPState) : IdPState :=
  if s.mesh then { s with mesh := false, webDHT := false, initialized := false }
  else s

/-- `clearIdentity(alias)` (index.js lines 486-491): clears the persisted
copy (external) and nulls the in-memory keypair. -/
def clearIdentity (s : IdPState) : IdPState :=
  { s with keys := none }

/-- One global single-character replacement, the effect of
`String.prototype.replace` with a one-character global regex. -/
def replaceAllChar (s : String) (c : Char) (r : String) : String :=
  String.join (s.data.map fun ch => if ch = c then r else String.singleton ch)

/-- The XML double-quote character. -/
def quoteChar : Char := Char.ofNat 34

/-- The XML apostrophe character. -/
def aposChar : Char := Char.ofNat 39

/-- `escapeXml` (saml.js lines 244-251): sequential global replacement of
the five XML special characters, ampersand first. -/
def escapeXml (s : String) : String :=
  replaceAllChar (replaceAllChar (replaceAllChar (replaceAllChar (replaceAllChar
    s '&' "&amp;") '<' "&lt;") '>' "&gt;") quoteChar "&quot;") aposChar "&apos;"

/-- The `notBefore` instant of a SAML assertion in epoch ms
(saml.js line 34: `notBefore = issueInstant` = the current time). -/
def samlNotBeforeMs (nowMs : Nat) : Nat := nowMs

/-- The `notOnOrAfter` instant of a SAML assertion in epoch ms
(saml.js line 35: `Date.now() + lifetimeSeconds * 1000`). -/
def samlNotOnOrAfterMs (nowMs lifetimeSeconds : Nat) : Nat :=
  nowMs + lifetimeSeconds * 1000

/-- One `saml:AttributeValue` element (saml.js lines 44-46). -/
def buildAttributeValue (v : String) : String :=
  "<saml:AttributeValue xsi:type=\"xs:string\">" ++ escapeXml v ++
  "</saml:AttributeValue>"

/-- One `saml:Attribute` element (saml.js lines 48-50); `values` is the
array-normalized value list (`Array.isArray(value) ? value : [value]`). -/
def buildAttribute (name : String) (values : List String) : String :=
  "<saml:Attribute Name=\"" ++ escapeXml name ++
  "\" NameFormat=\"urn:oasis:names:tc:SAML:2.0:attrname-format:basic\">\n        " ++
  String.join (values.map buildAttributeValue) ++
  "\n      </saml:Attribute>"

/-- The `saml:AttributeStatement` block (saml.js lines 40-56): empty when
there are no attributes. -/
def buildAttributeStatements (attributes : List (String × List String)) : String :=
  if attributes.isEmpty then ""
  else
    "<saml:AttributeStatement>\n      " ++
    String.intercalate "\n      " (attributes.map fun p => buildAttribute p.1 p.2) ++
    "\n    </saml:AttributeStatement>"

/-- The assertion template (saml.js lines 59-74) up to and including the
closing of `saml:Subject`, i.e. everything interpolated before the
`saml:Conditions` element. -/
def samlAssertChunkA (assertionId issueInstant issuer subject notOnOrAfter recipient :
    String) : String :=
  "<?xml version=\"1.0\" encoding=\"UTF-8\"?>\n" ++
  "<saml:Assertion xmlns:saml=\"urn:oasis:names:tc:SAML:2.0:assertion\"\n" ++
  "                xmlns:xs=\"http://www.w3.org/2001/XMLSchema\"\n" ++
  "                xmlns:xsi=\"http://www.w3.org/2001/XMLSchema-instance\"\n" ++
  "                ID=\"" ++ assertionId ++ "\"\n" ++
  "                Version=\"2.0\"\n" ++
  "                IssueInstant=\"" ++ issueInstant ++ "\">\n" ++
  "  <saml:Issuer>" ++ escapeXml issuer ++ "</saml:Issuer>\n" ++
  "  <saml:Subject>\n" ++
  "    <saml:NameID Format=\"urn:oasis:names:tc:SAML:1.1:nameid-format:unspecified\">" ++
  escapeXml subject ++ "</saml:NameID>\n" ++
  "    <saml:SubjectConfirmation Method=\"urn:oasis:names:tc:SAML:2.0:cm:bearer\">\n" ++
  "      <saml:SubjectConfirmationData NotOnOrAfter=\"" ++ notOnOrAfter ++ "\"\n" ++
  "                                     Recipient=\"" ++ escapeXml recipient ++ "\"\n" ++
  "                                     InResponseTo=\"_request_id\"/>\n" ++
  "    </saml:SubjectConfirmation>\n" ++
  "  </saml:Subject>\n" ++
  "  "

/-- The assertion template (saml.js lines 80-86) from `saml:AuthnStatement`
to the end, i.e. everything after the `saml:Conditions` element. -/
def samlAssertChunkB (authnInstant sessionIndex attributeStatements : String) : String :=
  "<saml:AuthnStatement AuthnInstant=\"" ++ authnInstant ++ "\" SessionIndex=\"" ++
  sessionIndex ++ "\">\n" ++
  "    <saml:AuthnContext>\n" ++
  "      <saml:AuthnContextClassRef>urn:oasis:names:tc:SAML:2.0:ac:classes:unspecified</saml:AuthnContextClassRef>\n" ++
  "    </saml:AuthnContext>\n" ++
  "  </saml:AuthnStatement>\n" ++
  "  " ++ attributeStatements ++ "\n" ++
  "</saml:Assertion>"

/-- Result of `generateSAMLAssertion` with a signing function supplied:
`{ assertion, signature, assertionId }` (saml.js lines 89-96). -/
structure SAMLAssertionResult where
  assertion : String
  signature : String
  assertionId : String

/-- `generateSAMLAssertion(options)` (saml.js lines 21-102).  `toISO` is the
abstract `Date#toISOString` rendering of an epoch-ms instant, `nowMs` the
current time, `idRand` / `sessRand` the random hex strings from
`generateId()`; the rest are the caller options.  The `saml:Conditions`
element (saml.js lines 75-79) is the middle group of the concatenation. -/
def generateSAMLAssertion (sign : String → String) (toISO : Nat → String)
    (nowMs : Nat) (idRand sessRand : String) (issuer recipient subject : String)
    (attributes : List (String × List String)) (audienceRestriction : String)
    (lifetimeSeconds : Nat) : SAMLAssertionResult :=
  let assertionId := "_" ++ idRand
  let issueInstant := toISO nowMs
  let notBefore := issueInstant
  let notOnOrAfter := toISO (samlNotOnOrAfterMs nowMs lifetimeSeconds)
  let authnInstant := issueInstant
  let sessionIndex := "_" ++ sessRand
  let attributeStatements := buildAttributeStatements attributes
  let assertion :=
    samlAssertChunkA assertionId issueInstant issuer subject notOnOrAfter recipient ++
    ("<saml:Conditions NotBefore=\"" ++ notBefore ++ "\" NotOnOrAfter=\"" ++
     notOnOrAfter ++ "\">\n" ++
     "    <saml:AudienceRestriction>\n" ++
     "      <saml:Audience>" ++ escapeXml audienceRestriction ++ "</saml:Audience>\n" ++
     "    </saml:AudienceRestriction>\n" ++
     "  </saml:Conditions>\n" ++
     "  ") ++
    samlAssertChunkB authnInstant sessionIndex attributeStatements
  { assertion := assertion, signature := sign assertion, assertionId := assertionId }

/-- The response template (saml.js lines 126-133) before the interpolation
of `inResponseTo`.  `destination` is escaped, per the source. -/
def samlRespChunkA (responseId issueInstant destination : String) : String :=
  "<?xml version=\"1.0\" encoding=\"UTF-8\"?>\n" ++
  "<samlp:Response xmlns:samlp=\"urn:oasis:names:tc:SAML:2.0:protocol\"\n" ++
  "                xmlns:saml=\"urn:oasis:names:tc:SAML:2.0:assertion\"\n" ++
  "                ID=\"" ++ responseId ++ "\"\n" ++
  "                Version=\"2.0\"\n" ++
  "                IssueInstant=\"" ++ issueInstant ++ "\"\n" ++
  "                Destination=\"" ++ escapeXml destination ++ "\"\n" ++
  "                InResponseTo=\""

/-- The response template (saml.js lines 133-136) between `inResponseTo`
and `statusCode`.  `issuer` is escaped, per the source. -/
def samlRespChunkB (issuer : String) : String :=
  "\">\n" ++
  "  <saml:Issuer>" ++ escapeXml issuer ++ "</saml:Issuer>\n" ++
  "  <samlp:Status>\n" ++
  "    <samlp:StatusCode Value=\""

/-- The response template (saml.js lines 136-139) after `statusCode`. -/
def samlRespChunkC (assertion : String) : String :=
  "\"/>\n" ++
  "  </samlp:Status>\n" ++
  "  " ++ assertion ++ "\n" ++
  "</samlp:Response>"

/-- `generateSAMLResponse(options)` (saml.js lines 114-140): the response
envelope.  `inResponseTo` and `statusCode` are interpolated exactly as the
source does — without `escapeXml`. -/
def generateSAMLResponse (responseId issueInstant assertion issuer destination
    inResponseTo statusCode : String) : String :=
  samlRespChunkA responseId issueInstant destination ++
  inResponseTo ++
  samlRespChunkB issuer ++
  statusCode ++
  samlRespChunkC assertion

/-- `publicKey.replace(/\n/g, '')` (saml.js line 172). -/
def stripNewlines (s : String) : String :=
  replaceAllChar s (Char.ofNat 10) ""

/-- The metadata template (saml.js lines 163-172) before the interpolation
of the public key.  `entityId` is escaped, per the source. -/
def metaChunkA (entityId validUntil : String) : String :=
  "<?xml version=\"1.0\" encoding=\"UTF-8\"?>\n" ++
  "<md:EntityDescriptor xmlns:md=\"urn:oasis:names:tc:SAML:2.0:metadata\"\n" ++
  "                     xmlns:ds=\"http://www.w3.org/2000/09/xmldsig#\"\n" ++
  "                     entityID=\"" ++ escapeXml entityId ++ "\"\n" ++
  "                     validUntil=\"" ++ validUntil ++ "\">\n" ++
  "  <md:IDPSSODescriptor protocolSupportEnumeration=\"urn:oasis:names:tc:SAML:2.0:protocol\">\n" ++
  "    <md:KeyDescriptor use=\"signing\">\n" ++
  "      <ds:KeyInfo>\n" ++
  "        <ds:X509Data>\n" ++
  "          <ds:X509Certificate>"

/-- The metadata template (saml.js lines 172-191) after the public key;
`ssoUrl`, `organizationName`, `entityId` and `contactEmail` are escaped,
per the source. -/
def metaChunkB (ssoUrl organizationName entityId contactEmail : String) : String :=
  "</ds:X509Certificate>\n" ++
  "        </ds:X509Data>\n" ++
  "      </ds:KeyInfo>\n" ++
  "    </md:KeyDescriptor>\n" ++
  "    <md:NameIDFormat>urn:oasis:names:tc:SAML:1.1:nameid-format:unspecified</md:NameIDFormat>\n" ++
  "    <md:NameIDFormat>urn:oasis:names:tc:SAML:2.0:nameid-format:persistent</md:NameIDFormat>\n" ++
  "    <md:SingleSignOnService Binding=\"urn:oasis:names:tc:SAML:2.0:bindings:HTTP-POST\"\n" ++
  "                            Location=\"" ++ escapeXml ssoUrl ++ "\"/>\n" ++
  "    <md:SingleSignOnService Binding=\"urn:oasis:names:tc:SAML:2.0:bindings:HTTP-Redirect\"\n" ++
  "                            Location=\"" ++ escapeXml ssoUrl ++ "\"/>\n" ++
  "  </md:IDPSSODescriptor>\n" ++
  "  <md:Organization>\n" ++
  "    <md:OrganizationName xml:lang=\"en\">" ++ escapeXml organizationName ++
  "</md:OrganizationName>\n" ++
  "    <md:OrganizationDisplayName xml:lang=\"en\">" ++ escapeXml organizationName ++
  "</md:OrganizationDisplayName>\n" ++
  "    <md:OrganizationURL xml:lang=\"en\">" ++ escapeXml entityId ++
  "</md:OrganizationURL>\n" ++
  "  </md:Organization>\n" ++
  "  <md:ContactPerson contactType=\"technical\">\n" ++
  "    <md:EmailAddress>" ++ escapeXml contactEmail ++ "</md:EmailAddress>\n" ++
  "  </md:ContactPerson>\n" ++
  "</md:EntityDescriptor>"

/-- `generateIdPMetadata(options)` (saml.js lines 152-192): the IdP
metadata document.  The public key is interpolated with newlines stripped
but — exactly as the source does — without `escapeXml`. -/
def generateIdPMetadata (entityId validUntil ssoUrl publicKey organizationName
    contactEmail : String) : String :=
  metaChunkA entityId validUntil ++
  stripNewlines publicKey ++
  metaChunkB ssoUrl organizationName entityId contactEmail

/-- Substring occurrence: `mid` occurs contiguously inside `s`. -/
def ContainsSub (s mid : String) : Prop :=
  ∃ pre post, s = pre ++ mid ++ post

/-- Reading back the key just written returns the new value. -/
theorem getKey_setKey_same (l : List (String × JVal)) (k : String) (v : JVal) :
    getKey (setKey l k v) k = some v := by
  induction l with
  | nil => simp [setKey, getKey]
  | cons p rest ih =>
    obtain ⟨k', v'⟩ := p
    by_cases h : k' = k
    · simp [setKey, getKey, h]
    · simp [setKey, getKey, h, ih]

/-- Writing one key leaves every other key's value unchanged. -/
theorem getKey_setKey_diff (l : List (String × JVal)) (k k' : String) (v : JVal)
    (h : k' ≠ k) : getKey (setKey l k v) k' = getKey l k' := by
  induction l with
  | nil => simp [setKey, getKey, Ne.symm h]
  | cons p rest ih =>
    obtain ⟨a, b⟩ := p
    by_cases hak : a = k
    · subst hak
      by_cases hak' : a = k'
      · exact absurd (hak' ▸ h) (by simp)
      · simp [setKey, getKey, hak']
    · by_cases hak' : a = k'
      · subst hak'
        simp [setKey, getKey, h]
      · simp [setKey, getKey, hak, hak', ih]

/-- A deterministic stand-in for the UnSEA signer, used to instantiate the
abstract crypto collaborator in concrete evaluations. -/
def signEx : String → String := fun s => "SIG:" ++ s

/-- Stand-in verifier accepting exactly `signEx`'s output on the same
message — the idealized behaviour of `verifyMessage` against
`signMessage`. -/
def verifyEx : String → Option JVal → Option JVal → Bool := fun m sv _ =>
  match sv with
  | some (.str s) => s == "SIG:" ++ m
  | _ => false

/-- Verifier that accepts everything (for check-order independence). -/
def verifyTrue : String → Option JVal → Option JVal → Bool := fun _ _ _ => true

/-- Verifier that rejects everything (for check-order independence). -/
def verifyFalse : String → Option JVal → Option JVal → Bool := fun _ _ _ => false

/-- A session state holding a loaded keypair and a live mesh. -/
def c2State : IdPState :=
  { ns := "default", mesh := true, webDHT := true,
    keys := some { pub := "PUB", epub := "EPUB", priv := "PRIV", epriv := "EPRIV" },
    initialized := true }

/-- C2 counterexample: a session with a loaded keypair still holds that
keypair after `disconnect()` returns — the keys slot is not null, contrary
to the claim that the in-memory keypair is discarded. -/
theorem disconnect_retains_keypair_cex :
    (disconnect c2State).keys
        = some { pub := "PUB", epub := "EPUB", priv := "PRIV", epriv := "EPRIV" }
    ∧ (disconnect c2State).keys ≠ none := by
  refine ⟨rfl, ?_⟩
  decide

/-- C2 (amended): after `disconnect()` returns, the mesh and WebDHT handles
are dropped and the session is marked uninitialized (when a mesh was
present), but the in-memory keypair is retained unchanged; it is discarded
only by `clearIdentity`, and persisted copies are untouched throughout. -/
theorem disconnect_state_amended (s : IdPState) :
    (disconnect s).keys = s.keys
    ∧ (s.mesh = true → (disconnect s).mesh = false ∧ (disconnect s).webDHT = false
        ∧ (disconnect s).initialized = false)
    ∧ (clearIdentity s).keys = none := by
  unfold disconnect clearIdentity
  by_cases h : s.mesh = true
  · simp [h]
  · simp [h]

/-- C2 witness: the amended statement evaluated on a concrete session with
a live mesh and a loaded keypair. -/
theorem disconnect_state_amended_witness :
    (disconnect c2State).keys = c2State.keys ∧ (disconnect c2State).mesh = false :=
  ⟨(disconnect_state_amended c2State).1,
   ((disconnect_state_amended c2State).2.1 rfl).1⟩

/-- C10: the claims object of an issued token carries the service-set
`namespace`, `iss`, `iat` and `exp` fields (session namespace, session
signing key, current time, current time plus ttl), overriding any
same-named caller entries, while every other caller entry passes through
unchanged. -/
theorem generateAuthToken_service_fields (sign : String → String)
    (ns pub : String) (now ttl : Int) (claims : List (String × JVal)) :
    (generateAuthToken sign ns pub now ttl claims).claims
        = some (tokenClaims claims ns pub now ttl)
    ∧ getKey (tokenClaims claims ns pub now ttl) "namespace" = some (.str ns)
    ∧ getKey (tokenClaims claims ns pub now ttl) "iss" = some (.str pub)
    ∧ getKey (tokenClaims claims ns pub now ttl) "iat" = some (.num now)
    ∧ getKey (tokenClaims claims ns pub now ttl) "exp" = some (.num (now + ttl))
    ∧ ∀ k, k ≠ "namespace" → k ≠ "iss" → k ≠ "iat" → k ≠ "exp" →
        getKey (tokenClaims claims ns pub now ttl) k = getKey claims k := by
  refine ⟨rfl, ?_, ?_, ?_, ?_, ?_⟩
  · unfold tokenClaims
    rw [getKey_setKey_diff _ _ _ _ (by decide), getKey_setKey_diff _ _ _ _ (by decide),
      getKey_setKey_diff _ _ _ _ (by decide), getKey_setKey_same]
  · unfold tokenClaims
    rw [getKey_setKey_diff _ _ _ _ (by decide), getKey_setKey_diff _ _ _ _ (by decide),
      getKey_setKey_same]
  · unfold tokenClaims
    rw [getKey_setKey_diff _ _ _ _ (by decide), getKey_setKey_same]
  · unfold tokenClaims
    rw [getKey_setKey_same]
  · intro k h1 h2 h3 h4
    unfold tokenClaims
    rw [getKey_setKey_diff _ _ _ _ h4, getKey_setKey_diff _ _ _ _ h3,
      getKey_setKey_diff _ _ _ _ h2, getKey_setKey_diff _ _ _ _ h1]

/-- C10 witness: a caller-supplied `iss` is overridden by the session key
while an ordinary caller claim passes through. -/
theorem generateAuthToken_service_fields_witness :
    getKey (tokenClaims [("iss", .str "attacker"), ("user", .str "alice")]
        "ns" "PUB" 1000 3600) "iss" = some (.str "PUB")
    ∧ getKey (tokenClaims [("iss", .str "attacker"), ("user", .str "alice")]
        "ns" "PUB" 1000 3600) "user" = some (.str "alice") :=
  ⟨(generateAuthToken_service_fields signEx "ns" "PUB" 1000 3600 _).2.2.1,
   ((generateAuthToken_service_fields signEx "ns" "PUB" 1000 3600 _).2.2.2.2.2
      "user" (by decide) (by decide) (by decide) (by decide)).trans rfl⟩

/-- C9: a token whose claims carry no `exp` field, or whose `exp` is `0`,
is never reported expired — verification goes straight to the signature
check, so with an accepting verifier it is valid at any time. -/
theorem verifyAuthToken_skips_missing_exp
    (verify : String → Option JVal → Option JVal → Bool) (now : Int)
    (c : List (String × JVal)) (sig : String) (hsig : sig ≠ "")
    (hexp : getKey c "exp" = none ∨ getKey c "exp" = some (.num 0)) :
    verifyAuthToken verify now ⟨some c, some sig⟩
      = (if verify (serialize (.obj c)) (some (.str sig)) (getKey c "iss")
         then .valid c else .invalid "Invalid signature")
    ∧ verifyAuthToken verify now ⟨some c, some sig⟩ ≠ .invalid "Token expired" := by
  have hch : expiredCheck c now = false := by
    unfold expiredCheck
    rcases hexp with h | h
    · rw [h]
    · rw [h]
      simp
  have h1 : verifyAuthToken verify now ⟨some c, some sig⟩
      = (if verify (serialize (.obj c)) (some (.str sig)) (getKey c "iss")
         then .valid c else .invalid "Invalid signature") := by
    simp [verifyAuthToken, hsig, hch]
  refine ⟨h1, ?_⟩
  rw [h1]
  split
  · exact fun h => VerifyResult.noConfusion h
  · intro h
    injection h with h'
    exact absurd h' (by decide)

/-- C9 witness: a concrete exp-less token with an accepting verifier is
valid at an arbitrary late time. -/
theorem verifyAuthToken_skips_missing_exp_witness :
    verifyAuthToken verifyTrue 999999999 ⟨some [("user", .str "alice")], some "s"⟩
      = .valid [("user", .str "alice")] := by
  have := (verifyAuthToken_skips_missing_exp verifyTrue 999999999
    [("user", .str "alice")] "s" (by decide) (Or.inl rfl)).1
  rw [this]
  rfl

/-- C5: `verifyAuthToken` checks structure, then expiry, then the
signature: a token missing claims or signature is malformed for every
verifier (so the signature check is never consulted); a structurally
complete but expired token is reported expired for every verifier; only a
token passing both reaches the signature check, whose outcome alone decides
between valid and invalid-signature. -/
theorem verifyAuthToken_check_order (now : Int) (t : AuthToken) :
    ((t.claims = none ∨ t.signature = none ∨ t.signature = some "") →
      ∀ verify, verifyAuthToken verify now t = .invalid "Invalid token format")
    ∧ (∀ c sig e, t.claims = some c → t.signature = some sig → sig ≠ "" →
        getKey c "exp" = some (.num e) → e ≠ 0 → e < now →
        ∀ verify, verifyAuthToken verify now t = .invalid "Token expired")
    ∧ (∀ c sig, t.claims = some c → t.signature = some sig → sig ≠ "" →
        expiredCheck c now = false →
        ∀ verify, verifyAuthToken verify now t
          = (if verify (serialize (.obj c)) (some (.str sig)) (getKey c "iss")
             then .valid c else .invalid "Invalid signature")) := by
  obtain ⟨cl, sg⟩ := t
  refine ⟨?_, ?_, ?_⟩
  · rintro (h | h | h) verify <;> subst h
    · cases sg <;> rfl
    · cases cl <;> rfl
    · cases cl <;> rfl
  · intro c sig e hc hs hsig hget h0 hlt verify
    subst hc; subst hs
    have hch : expiredCheck c now = true := by
      unfold expiredCheck
      rw [hget]
      simp only [Bool.and_eq_true, decide_eq_true_eq]
      exact ⟨h0, hlt⟩
    simp [verifyAuthToken, hsig, hch]
  · intro c sig hc hs hsig hch verify
    subst hc; subst hs
    simp [verifyAuthToken, hsig, hch]

/-- C5 witness: the three stages on concrete tokens — a structurally broken
token is malformed even under an accepting verifier, an expired one reports
expiry even under an accepting verifier, and a live one reaches the
signature check. -/
theorem verifyAuthToken_check_order_witness :
    verifyAuthToken verifyTrue 1000 ⟨none, some "s"⟩ = .invalid "Invalid token format"
    ∧ verifyAuthToken verifyTrue 1000 ⟨some [("exp", .num 5)], some "s"⟩
        = .invalid "Token expired"
    ∧ verifyAuthToken verifyFalse 1000 ⟨some [("exp", .num 2000)], some "s"⟩
        = .invalid "Invalid signature" := by
  refine ⟨(verifyAuthToken_check_order 1000 ⟨none, some "s"⟩).1 (Or.inl rfl) verifyTrue,
    ?_, ?_⟩
  · exact (verifyAuthToken_check_order 1000
      ⟨some [("exp", .num 5)], some "s"⟩).2.1 [("exp", .num 5)] "s" 5
      rfl rfl (by decide) rfl (by decide) (by decide) verifyTrue
  · have := (verifyAuthToken_check_order 1000
      ⟨some [("exp", .num 2000)], some "s"⟩).2.2 [("exp", .num 2000)] "s"
      rfl rfl (by decide) (by rfl) verifyFalse
    rw [this]
    rfl

/-- C4 counterexample: a token issued with `ttlSeconds = 0` and verified
immediately (same clock second) is reported valid, not `TokenExpired`:
`exp = now` fails the strict `exp < now` comparison. -/
theorem zero_ttl_token_not_expired_cex :
    verifyAuthToken verifyEx 1000 (generateAuthToken signEx "ns" "PUB" 1000 0 [])
      = .valid [("namespace", .str "ns"), ("iss", .str "PUB"),
                ("iat", .num 1000), ("exp", .num 1000)]
    ∧ (VerifyResult.valid [("namespace", .str "ns"), ("iss", .str "PUB"),
        ("iat", .num 1000), ("exp", .num 1000)]) ≠ .invalid "Token expired" := by
  refine ⟨rfl, ?_⟩
  exact fun h => VerifyResult.noConfusion h

/-- C4 (amended): a strictly negative `ttlSeconds` (with `now + ttl ≠ 0`,
i.e. any realistic clock) yields a token that is immediately reported
`TokenExpired`; `ttlSeconds = 0` does not — verified within the issuing
second, such a token passes the expiry check. -/
theorem negative_ttl_token_expired (sign : String → String)
    (verify : String → Option JVal → Option JVal → Bool) (ns pub : String)
    (now ttl : Int) (claims : List (String × JVal))
    (httl : ttl < 0) (hexp : now + ttl ≠ 0)
    (hsig : sign (serialize (.obj (tokenClaims claims ns pub now ttl))) ≠ "") :
    verifyAuthToken verify now (generateAuthToken sign ns pub now ttl claims)
      = .invalid "Token expired" := by
  have hget : getKey (tokenClaims claims ns pub now ttl) "exp"
      = some (.num (now + ttl)) := getKey_setKey_same _ _ _
  have hch : expiredCheck (tokenClaims claims ns pub now ttl) now = true := by
    unfold expiredCheck
    rw [hget]
    simp only [Bool.and_eq_true, decide_eq_true_eq]
    exact ⟨hexp, by omega⟩
  simp [generateAuthToken, verifyAuthToken, hsig, hch]

/-- C4 witness: `ttlSeconds = -1` verified at issue time is expired. -/
theorem negative_ttl_token_expired_witness :
    verifyAuthToken verifyEx 1000 (generateAuthToken signEx "ns" "PUB" 1000 (-1) [])
      = .invalid "Token expired" :=
  negative_ttl_token_expired signEx verifyEx "ns" "PUB" 1000 (-1) []
    (by decide) (by decide) (by decide)

/-- C1: the serialization signed by `generateAuthToken` and re-derived by
`verifyAuthToken` is `JSON.stringify` in object insertion order, not a
canonical encoding: two claims maps with exactly the same key-value pairs
(a permutation of one another) built in different insertion orders yield
different signed byte sequences, and a token issued from one ordering fails
signature verification when its claims map is reconstructed in the other
ordering — refuting the claimed order-independence. -/
theorem generateAuthToken_serialization_order_dependent :
    (generateAuthToken signEx "ns" "PUB" 1000 3600
        [("a", .num 1), ("b", .num 2)]).claims
      = some [("a", .num 1), ("b", .num 2), ("namespace", .str "ns"),
          ("iss", .str "PUB"), ("iat", .num 1000), ("exp", .num 4600)]
    ∧ (generateAuthToken signEx "ns" "PUB" 1000 3600
        [("b", .num 2), ("a", .num 1)]).claims
      = some [("b", .num 2), ("a", .num 1), ("namespace", .str "ns"),
          ("iss", .str "PUB"), ("iat", .num 1000), ("exp", .num 4600)]
    ∧ List.Perm
        [("a", JVal.num 1), ("b", JVal.num 2), ("namespace", JVal.str "ns"),
         ("iss", JVal.str "PUB"), ("iat", JVal.num 1000), ("exp", JVal.num 4600)]
        [("b", JVal.num 2), ("a", JVal.num 1), ("namespace", JVal.str "ns"),
         ("iss", JVal.str "PUB"), ("iat", JVal.num 1000), ("exp", JVal.num 4600)]
    ∧ serialize (.obj [("a", .num 1), ("b", .num 2), ("namespace", .str "ns"),
          ("iss", .str "PUB"), ("iat", .num 1000), ("exp", .num 4600)])
      ≠ serialize (.obj [("b", .num 2), ("a", .num 1), ("namespace", .str "ns"),
          ("iss", .str "PUB"), ("iat", .num 1000), ("exp", .num 4600)])
    ∧ verifyAuthToken verifyEx 1000
        ⟨(generateAuthToken signEx "ns" "PUB" 1000 3600
            [("b", .num 2), ("a", .num 1)]).claims,
         (generateAuthToken signEx "ns" "PUB" 1000 3600
            [("a", .num 1), ("b", .num 2)]).signature⟩
      = .invalid "Invalid signature" := by
  refine ⟨rfl, rfl, List.Perm.swap _ _ _, ?_, rfl⟩
  decide

/-- Reading the directory when the store holds a value under the derived
key: the result is decided by the signature re-verification. -/
theorem lookupIdentity_store_some
    (verify : String → Option JVal → Option JVal → Bool)
    (store : String → Option (List (String × JVal))) (ns pub : String)
    (data : List (String × JVal)) (h : store (dirKey pub ns) = some data) :
    lookupIdentity verify store ns pub
      = (if verify (serialize (.obj (removeKey data "signature")))
            (getKey data "signature") (some (.str pub))
         then .ok (some (removeKey data "signature"))
         else .error "Identity data signature verification failed") := by
  unfold lookupIdentity
  rw [h]

/-- A stand-in signer bound to an identity: the signature it produces
binds both the message and that identity's public key. -/
def signFor (p : String) : String → String := fun m => "SIG:" ++ p ++ ":" ++ m

/-- Key-aware stand-in verifier, accepting exactly `signFor p`'s output on
the same message when checked against the public key `p` — so, unlike
`verifyEx`, it distinguishes which public key a signature verifies under. -/
def verifyKeyed : String → Option JVal → Option JVal → Bool := fun m sv pk =>
  match sv, pk with
  | some (.str s), some (.str p) => s == "SIG:" ++ p ++ ":" ++ m
  | _, _ => false

/-- C3 counterexample: the code verifies the record against the *queried*
public key (the `lookupIdentity` argument, index.js line 400), not against
the record's embedded `pub` field as the claim states.  A record planted
under alice's directory slot that embeds Mallory's public key, with a
valid Mallory self-signature over the record minus its signature field
(second conjunct), is — per the claim's clause (b) — to be returned; the
code instead raises the tamper error (third conjunct). -/
theorem lookupIdentity_embedded_key_cex :
    getKey (registerIdentity (signFor "MALLORY") "MALLORY" "EPUB"
        (.obj [("username", .str "mallory")]) "ns1" 777).2 "pub"
      = some (.str "MALLORY")
    ∧ verifyKeyed
        (serialize (.obj (removeKey (registerIdentity (signFor "MALLORY") "MALLORY"
            "EPUB" (.obj [("username", .str "mallory")]) "ns1" 777).2 "signature")))
        (getKey (registerIdentity (signFor "MALLORY") "MALLORY" "EPUB"
            (.obj [("username", .str "mallory")]) "ns1" 777).2 "signature")
        (some (.str "MALLORY"))
      = true
    ∧ lookupIdentity verifyKeyed
        (fun q => if q = dirKey "PUB" "ns1"
          then some (registerIdentity (signFor "MALLORY") "MALLORY" "EPUB"
              (.obj [("username", .str "mallory")]) "ns1" 777).2
          else none)
        "ns1" "PUB"
      = .error "Identity data signature verification failed" := by
  refine ⟨rfl, ?_, ?_⟩
  · decide
  · rfl

/-- C3 (amended): `lookupIdentity` has exactly three outcomes — absent
key: `null` (no error); present with the embedded signature verifying
against the *queried* public key (the lookup argument, with which the
embedded `pub` of an honestly registered record coincides) over the record
minus its signature field: the record; present with a signature failing
against the queried key: the tampered-record error — and, concretely, a
registered record whose `profile` field is mutated after signing is
rejected with that error under the idealized verifier, so unverified data
is never returned. -/
theorem lookupIdentity_trichotomy
    (verify : String → Option JVal → Option JVal → Bool)
    (store : String → Option (List (String × JVal))) (ns pub : String) :
    (store (dirKey pub ns) = none → lookupIdentity verify store ns pub = .ok none)
    ∧ (∀ data, store (dirKey pub ns) = some data →
        verify (serialize (.obj (removeKey data "signature")))
            (getKey data "signature") (some (.str pub)) = true →
        lookupIdentity verify store ns pub = .ok (some (removeKey data "signature")))
    ∧ (∀ data, store (dirKey pub ns) = some data →
        verify (serialize (.obj (removeKey data "signature")))
            (getKey data "signature") (some (.str pub)) = false →
        lookupIdentity verify store ns pub
          = .error "Identity data signature verification failed")
    ∧ lookupIdentity verifyEx
        (fun q => if q = (registerIdentity signEx "PUB" "EPUB"
              (.obj [("username", .str "alice")]) "ns1" 777).1
          then some (setKey (registerIdentity signEx "PUB" "EPUB"
              (.obj [("username", .str "alice")]) "ns1" 777).2
            "profile" (.obj [("username", .str "mallory")]))
          else none)
        "ns1" "PUB"
      = .error "Identity data signature verification failed" := by
  refine ⟨?_, ?_, ?_, ?_⟩
  · intro h
    unfold lookupIdentity
    rw [h]
  · intro data h hv
    unfold lookupIdentity
    rw [h]
    simp [hv]
  · intro data h hv
    unfold lookupIdentity
    rw [h]
    simp [hv]
  · rfl

/-- C3 witness: the three outcomes realized on concrete stores — an empty
store yields `null`, a store returning a genuinely signed record yields the
record, and a store returning a record signed for different content yields
the tampered error. -/
theorem lookupIdentity_trichotomy_witness :
    lookupIdentity verifyEx (fun _ => none) "ns1" "PUB" = .ok none
    ∧ lookupIdentity verifyEx
        (fun q => if q = (registerIdentity signEx "PUB" "EPUB"
              (.obj [("username", .str "alice")]) "ns1" 777).1
          then some (registerIdentity signEx "PUB" "EPUB"
              (.obj [("username", .str "alice")]) "ns1" 777).2
          else none)
        "ns1" "PUB"
      = .ok (some [("pub", .str "PUB"), ("epub", .str "EPUB"),
          ("profile", .obj [("username", .str "alice")]),
          ("namespace", .str "ns1"), ("registered", .num 777)]) := by
  constructor
  · exact (lookupIdentity_trichotomy verifyEx (fun _ => none) "ns1" "PUB").1 rfl
  · exact (lookupIdentity_trichotomy verifyEx _ "ns1" "PUB").2.1
      (registerIdentity signEx "PUB" "EPUB"
        (.obj [("username", .str "alice")]) "ns1" 777).2 rfl (by decide)

/-- C8: round trip through the directory — when the store returns exactly
what `registerIdentity` put and the verifier accepts the signer's own
output, `lookupIdentity` with the same session's public key in the same
namespace succeeds (no tamper error) and returns the record with the
published profile: stripping the signature at read time reproduces the
exact field order, hence the exact serialization, signed at write time. -/
theorem register_lookup_roundtrip (sign : String → String)
    (verify : String → Option JVal → Option JVal → Bool)
    (pub epub ns : String) (profile : JVal) (registered : Int)
    (hv : ∀ m, verify m (some (.str (sign m))) (some (.str pub)) = true) :
    lookupIdentity verify
        (fun q => if q = (registerIdentity sign pub epub profile ns registered).1
          then some (registerIdentity sign pub epub profile ns registered).2 else none)
        ns pub
      = .ok (some [("pub", .str pub), ("epub", .str epub), ("profile", profile),
          ("namespace", .str ns), ("registered", .num registered)])
    ∧ getKey [("pub", .str pub), ("epub", .str epub), ("profile", profile),
          ("namespace", .str ns), ("registered", .num registered)] "profile"
      = some profile := by
  refine ⟨?_, rfl⟩
  have hstore : (fun q => if q = (registerIdentity sign pub epub profile ns registered).1
      then some (registerIdentity sign pub epub profile ns registered).2 else none)
      (dirKey pub ns) = some (registerIdentity sign pub epub profile ns registered).2 := by
    exact if_pos rfl
  rw [lookupIdentity_store_some verify _ ns pub _ hstore]
  show (if verify
      (serialize (.obj [("pub", .str pub), ("epub", .str epub), ("profile", profile),
        ("namespace", .str ns), ("registered", .num registered)]))
      (some (.str (sign (serialize (.obj [("pub", .str pub), ("epub", .str epub),
        ("profile", profile), ("namespace", .str ns), ("registered", .num registered)])))))
      (some (.str pub))
    then Except.ok (some [("pub", JVal.str pub), ("epub", JVal.str epub),
      ("profile", profile), ("namespace", JVal.str ns), ("registered", JVal.num registered)])
    else Except.error "Identity data signature verification failed")
      = Except.ok (some [("pub", JVal.str pub), ("epub", JVal.str epub),
          ("profile", profile), ("namespace", JVal.str ns),
          ("registered", JVal.num registered)])
  rw [hv]
  rfl

/-- C8 witness: the round trip on a concrete profile under the idealized
signer/verifier pair. -/
theorem register_lookup_roundtrip_witness :
    lookupIdentity verifyEx
        (fun q => if q = (registerIdentity signEx "PUB" "EPUB"
              (.obj [("username", .str "alice")]) "ns1" 777).1
          then some (registerIdentity signEx "PUB" "EPUB"
              (.obj [("username", .str "alice")]) "ns1" 777).2 else none)
        "ns1" "PUB"
      = .ok (some [("pub", .str "PUB"), ("epub", .str "EPUB"),
          ("profile", .obj [("username", .str "alice")]),
          ("namespace", .str "ns1"), ("registered", .num 777)]) := by
  exact (register_lookup_roundtrip signEx verifyEx "PUB" "EPUB" "ns1"
    (.obj [("username", .str "alice")]) 777
    (fun m => by simp [verifyEx, signEx])).1

/-- C6: not every string interpolated into a generated SAML document is
escaped — the response envelope interpolates `inResponseTo` and
`statusCode`, and the metadata interpolates the public key, without
`escapeXml`: for inputs containing XML special characters the produced
documents contain the raw, unescaped text (whose escaped form would have
been different), refuting the claim that only escaped forms appear in
interpolated positions. -/
theorem saml_unescaped_interpolations :
    ContainsSub
      (generateSAMLResponse "R" "T" "ASSERT" "ISS" "DEST" "<evilIRT>" "<evilSC>")
      "<evilIRT>"
    ∧ ContainsSub
      (generateSAMLResponse "R" "T" "ASSERT" "ISS" "DEST" "<evilIRT>" "<evilSC>")
      "<evilSC>"
    ∧ ContainsSub
      (generateIdPMetadata "EID" "VU" "SSO" "<evilPK>" "Org" "admin@example.com")
      "<evilPK>"
    ∧ escapeXml "<evilIRT>" = "&lt;evilIRT&gt;"
    ∧ ("<evilIRT>" : String) ≠ "&lt;evilIRT&gt;" := by
  refine ⟨?_, ?_, ?_, by decide, by decide⟩
  · refine ⟨samlRespChunkA "R" "T" "DEST",
      samlRespChunkB "ISS" ++ "<evilSC>" ++ samlRespChunkC "ASSERT", ?_⟩
    simp [generateSAMLResponse, String.append_assoc]
  · refine ⟨samlRespChunkA "R" "T" "DEST" ++ "<evilIRT>" ++ samlRespChunkB "ISS",
      samlRespChunkC "ASSERT", ?_⟩
    simp [generateSAMLResponse, String.append_assoc]
  · refine ⟨metaChunkA "EID" "VU",
      metaChunkB "SSO" "Org" "EID" "admin@example.com", ?_⟩
    have h : stripNewlines "<evilPK>" = "<evilPK>" := rfl
    simp [generateIdPMetadata, h, String.append_assoc]

/-- C7: the generated assertion's `Audience` element carries exactly the
caller-supplied service-provider entity id (whenever that id is unchanged
by XML escaping, e.g. any plain URL), and under the default lifetime of
300 seconds the `NotOnOrAfter` instant is exactly the `NotBefore` instant
plus 300 seconds (300000 ms); the document interpolates the ISO renderings
of precisely those two instants in its `saml:Conditions` element. -/
theorem samlAssertion_audience_lifetime (sign : String → String) (toISO : Nat → String)
    (nowMs : Nat) (idRand sessRand issuer recipient subject : String)
    (attributes : List (String × List String)) (audience : String)
    (h : escapeXml audience = audience) :
    ContainsSub
      (generateSAMLAssertion sign toISO nowMs idRand sessRand issuer recipient
        subject attributes audience 300).assertion
      ("<saml:Conditions NotBefore=\"" ++ toISO (samlNotBeforeMs nowMs)
        ++ "\" NotOnOrAfter=\"" ++ toISO (samlNotOnOrAfterMs nowMs 300) ++ "\">\n"
        ++ "    <saml:AudienceRestriction>\n"
        ++ "      <saml:Audience>" ++ audience ++ "</saml:Audience>\n"
        ++ "    </saml:AudienceRestriction>\n"
        ++ "  </saml:Conditions>\n"
        ++ "  ")
    ∧ samlNotOnOrAfterMs nowMs 300 = samlNotBeforeMs nowMs + 300 * 1000 := by
  refine ⟨?_, rfl⟩
  refine ⟨samlAssertChunkA ("_" ++ idRand) (toISO nowMs) issuer subject
      (toISO (samlNotOnOrAfterMs nowMs 300)) recipient,
    samlAssertChunkB (toISO nowMs) ("_" ++ sessRand)
      (buildAttributeStatements attributes), ?_⟩
  conv_rhs => rw [← h]
  rfl

/-- C7 witness: concrete assertion for alice targeting
`https://sp.example.com`: the conditions element names that audience and
the instant 300 s after issue. -/
theorem samlAssertion_audience_lifetime_witness :
    ContainsSub
      (generateSAMLAssertion signEx (fun ms => "ISO" ++ toString ms) 5000 "id" "sess"
        "https://idp.example.com" "https://sp.example.com/acs" "alice" []
        "https://sp.example.com" 300).assertion
      ("<saml:Conditions NotBefore=\"ISO5000\" NotOnOrAfter=\"ISO305000\">\n"
        ++ "    <saml:AudienceRestriction>\n"
        ++ "      <saml:Audience>https://sp.example.com</saml:Audience>\n"
        ++ "    </saml:AudienceRestriction>\n"
        ++ "  </saml:Conditions>\n"
        ++ "  ") := by
  exact (samlAssertion_audience_lifetime signEx (fun ms => "ISO" ++ toString ms) 5000
    "id" "sess" "https://idp.example.com" "https://sp.example.com/acs" "alice" []
    "https://sp.example.com" (by decide)).1
